import Mathlib

/-!
Verification development for the wpp-scrapper repository.

The development shallowly embeds the three core subsystems:
figures of src/src/services/StrapiStore.ts (chunked blob persistence),
src/src/services/SimpleWhatsAppService.ts (session lifecycle and the
bulk group-scan orchestrator) and the GroupScanner variant found in
src/unnamed/part_005 and src/unnamed/part_006.

Bytes are modelled as natural numbers below 256 and byte blobs as lists.
The external zlib compression (zlib.gzipSync / zlib.gunzipSync) is an
opaque library dependency, so it is modelled as a parameter pair of
functions together with the lossless round-trip hypothesis that the
library guarantees.  The Node Buffer base64 codec is modelled concretely
below at the level of ASCII character codes (byte 61 is the padding
character, an equals sign).
-/

/-- ASCII code of the base64 digit with value n (standard alphabet):
values 0..25 map to A..Z, 26..51 to a..z, 52..61 to 0..9, 62 to plus,
63 to slash. -/
def byteToB64 (n : Nat) : Nat :=
  if n < 26 then 65 + n
  else if n < 52 then 97 + (n - 26)
  else if n < 62 then 48 + (n - 52)
  else if n = 62 then 43
  else 47

/-- Value of a base64 digit given by its ASCII code (inverse alphabet). -/
def b64Val (c : Nat) : Nat :=
  if 65 ≤ c ∧ c ≤ 90 then c - 65
  else if 97 ≤ c ∧ c ≤ 122 then c - 97 + 26
  else if 48 ≤ c ∧ c ≤ 57 then c - 48 + 52
  else if c = 43 then 62
  else 63

/-- Model of Buffer.toString with base64: groups of three bytes become
four base64 characters, with 61 (the equals sign) as padding. -/
def b64encode : List Nat → List Nat
  | [] => []
  | [a] => [byteToB64 (a / 4), byteToB64 (a % 4 * 16), 61, 61]
  | [a, b] => [byteToB64 (a / 4), byteToB64 (a % 4 * 16 + b / 16),
               byteToB64 (b % 16 * 4), 61]
  | a :: b :: c :: rest =>
      byteToB64 (a / 4) :: byteToB64 (a % 4 * 16 + b / 16) ::
      byteToB64 (b % 16 * 4 + c / 64) :: byteToB64 (c % 64) :: b64encode rest

/-- Model of Buffer.from with base64: inverse of b64encode on well
formed input. -/
def b64decode : List Nat → List Nat
  | c1 :: c2 :: c3 :: c4 :: rest =>
      let v1 := b64Val c1
      let v2 := b64Val c2
      if c3 = 61 then [v1 * 4 + v2 / 16]
      else
        let v3 := b64Val c3
        if c4 = 61 then [v1 * 4 + v2 / 16, v2 % 16 * 16 + v3 / 4]
        else (v1 * 4 + v2 / 16) :: (v2 % 16 * 16 + v3 / 4) ::
             (v3 % 4 * 64 + b64Val c4) :: b64decode rest
  | _ => []

/-! ## StrapiStore (src/src/services/StrapiStore.ts)

The remote record service is modelled as the list of fragment records it
holds; the claims under test stipulate a store that faithfully returns
what was written.  Queries filtered by session and active flag, sorted
by chunk index, are modelled by filter and a stable mergeSort exactly as
the extract code sorts the fetched page.
-/

/-- MAX_CHUNK_SIZE from StrapiStore.ts line 33: 1024 * 1024 characters
per fragment. -/
def MAX_CHUNK_SIZE : Nat := 1024 * 1024

/-- One whatsapp-sessions record, with the fields written by save
(StrapiStore.ts lines 124-132). -/
structure Fragment where
  session_id : String
  active : Bool
  is_compressed : Bool
  chunk_index : Nat
  total_chunks : Nat
  session_data : List Nat
deriving DecidableEq

namespace StrapiStore

/-- deleteAllSessionFragments (StrapiStore.ts lines 268-309): every
record whose session_id matches is deleted, active or not. -/
def deleteAllSessionFragments (store : List Fragment) (sessionName : String) :
    List Fragment :=
  store.filter (fun f => f.session_id ≠ sessionName)

/-- The fragment records written by save (StrapiStore.ts lines 115-139):
the base64 text is cut into totalChunks = ceil(length / MAX_CHUNK_SIZE)
substrings of MAX_CHUNK_SIZE characters, written sequentially with
chunk_index i, all active and compressed. -/
def saveFragments (sessionName : String) (base64Data : List Nat) : List Fragment :=
  let totalChunks := (base64Data.length + (MAX_CHUNK_SIZE - 1)) / MAX_CHUNK_SIZE
  (List.range totalChunks).map (fun i =>
    { session_id := sessionName
      active := true
      is_compressed := true
      chunk_index := i
      total_chunks := totalChunks
      session_data := (base64Data.drop (i * MAX_CHUNK_SIZE)).take MAX_CHUNK_SIZE })

/-- save (StrapiStore.ts lines 91-149): gzip the blob, base64 encode it,
delete every existing fragment for the session first, then write the new
fragments.  gzip is the opaque zlib.gzipSync collaborator, passed as a
parameter. -/
def save (gzip : List Nat → List Nat) (store : List Fragment)
    (sessionName : String) (zipData : List Nat) : List Fragment :=
  deleteAllSessionFragments store sessionName ++
    saveFragments sessionName (b64encode (gzip zipData))

/-- extract (StrapiStore.ts lines 154-250): fetch the active fragments of
the session sorted by chunk_index, return none when there are no
fragments, otherwise concatenate the payloads in index order, base64
decode, and gunzip when any fragment is marked compressed, falling back
to the raw decoded bytes when decompression fails.  gunzip is the opaque
zlib.gunzipSync collaborator; a none result models a thrown
decompression error. -/
def extract (gunzip : List Nat → Option (List Nat)) (store : List Fragment)
    (sessionName : String) : Option (List Nat) :=
  let fragments := (store.filter
      (fun f => f.active && f.session_id == sessionName)).mergeSort
      (fun a b => a.chunk_index ≤ b.chunk_index)
  if fragments.isEmpty then none
  else
    let sessionData := fragments.foldl (fun acc f => acc ++ f.session_data) []
    let isCompressed := fragments.any (fun f => f.is_compressed)
    let dataBuffer := b64decode sessionData
    if isCompressed then
      match gunzip dataBuffer with
      | some out => some out
      | none => some dataBuffer
    else some dataBuffer

end StrapiStore

/-! ## Scan orchestrator (src/src/services/SimpleWhatsAppService.ts)

Chats and members as seen through the automation client.  Wall-clock
Date values are modelled by a natural number clock passed in by the
environment. -/

/-- A chat returned by client.getChats(). -/
structure Chat where
  name : String
  isGroup : Bool
deriving DecidableEq

/-- A GroupMember record as built from a participant
(SimpleWhatsAppService.ts lines 446-460). -/
structure GroupMember where
  phoneNumber : String
  name : String
  isActive : Bool
  groupName : String
  joinDate : Nat
  leftDate : Option Nat
  id : Nat
  createdAt : Nat
  updatedAt : Nat
deriving DecidableEq

/-- Participant to GroupMember conversion
(SimpleWhatsAppService.ts lines 446-460). -/
def mkMember (now : Nat) (groupName user : String) : GroupMember :=
  { phoneNumber := user
    name := "Participante " ++ user
    isActive := true
    groupName := groupName
    joinDate := now
    leftDate := none
    id := 0
    createdAt := now
    updatedAt := now }

/-- Model of the JavaScript toLowerCase over a list of characters. -/
def lowerChars (l : List Char) : List Char := l.map Char.toLower

/-- Whether the second list is a leading segment of the first. -/
def leadsWith : List Char → List Char → Bool
  | _, [] => true
  | [], _ :: _ => false
  | a :: as, b :: bs => a = b && leadsWith as bs

/-- Model of the JavaScript String.includes: contiguous containment. -/
def containsSeg : List Char → List Char → Bool
  | hay, needle =>
    if leadsWith hay needle then true
    else match hay with
      | [] => false
      | _ :: t => containsSeg t needle

/-- The group resolution of the scan loop (SimpleWhatsAppService.ts lines
432-435 and 304-307): the FIRST chat in list order whose lowercased name
equals the lowercased target or contains it as a substring. -/
def findGroup (allGroups : List Chat) (groupName : String) : Option Chat :=
  allGroups.find? (fun g =>
    lowerChars g.name.toList = lowerChars groupName.toList ||
    containsSeg (lowerChars g.name.toList) (lowerChars groupName.toList))

/-- Modelled from the spec sentence of C3: resolve by exact
case-insensitive match first, and only if no exact match exists fall
back to substring containment. -/
def specResolveGroup (allGroups : List Chat) (groupName : String) : Option Chat :=
  match allGroups.find? (fun g =>
      lowerChars g.name.toList = lowerChars groupName.toList) with
  | some g => some g
  | none => allGroups.find? (fun g =>
      containsSeg (lowerChars g.name.toList) (lowerChars groupName.toList))

/-- Calls made through the automation client handle. -/
inductive ClientCall where
  | clientInit
  | getChats
  | getParticipants (group : String)
deriving DecidableEq

/-- The scanProgressData record (SimpleWhatsAppService.ts lines 38-50). -/
structure ScanProgress where
  total : Nat
  completed : Nat
  successful : Nat
  failed : Nat
  failedGroups : List String
deriving DecidableEq

/-- The record stored into results for one group
(SimpleWhatsAppService.ts lines 476-479 and 498-501). -/
structure GroupInfo where
  name : String
  members : List GroupMember
deriving DecidableEq

/-- The automation client environment: the chat list served by
getChats(), the participant fetch outcome per resolved group name (none
models a fetch that hangs past the per-group timeout or rejects, which
the inner promise converts to a null resolution), and the clock. -/
structure AutoEnv where
  chats : List Chat
  participants : String → Option (List String)
  now : Nat

/-- The getScanProgress() return value
(SimpleWhatsAppService.ts lines 1320-1336). -/
structure ScanProgressView where
  total : Nat
  completed : Nat
  successful : Nat
  failed : Nat
  failedGroups : List String
  percent : Nat
deriving DecidableEq

/-- getScanProgress (SimpleWhatsAppService.ts lines 1320-1336):
percent is Math.round((completed / total) * 100) when total is positive
and 0 otherwise; rounding of the real ratio is modelled exactly as
half-up rational rounding. -/
def getScanProgress (p : ScanProgress) : ScanProgressView :=
  { total := p.total
    completed := p.completed
    successful := p.successful
    failed := p.failed
    failedGroups := p.failedGroups
    percent := if 0 < p.total then (200 * p.completed + p.total) / (2 * p.total) else 0 }

/-- In-memory service state relevant to scanGroups
(SimpleWhatsAppService.ts lines 27-50). -/
structure ServiceState where
  clientPresent : Bool
  pupPage : Bool
  isAuthenticated : Bool
  scanning : Bool
  progress : ScanProgress
  autoCloseArmed : Bool
deriving DecidableEq

/-- The constructor-time state of the service
(SimpleWhatsAppService.ts lines 27-50): no client, not authenticated,
not scanning, all progress counters zero. -/
def initialServiceState : ServiceState :=
  { clientPresent := false
    pupPage := false
    isAuthenticated := false
    scanning := false
    progress := { total := 0, completed := 0, successful := 0, failed := 0,
                  failedGroups := [] }
    autoCloseArmed := false }

namespace SimpleWhatsAppService

/-- The per-group promise of scanGroups (SimpleWhatsAppService.ts lines
424-485): resolve the name against the already fetched group list, fetch
participants, convert them; any failure (not found, fetch error, timeout)
resolves to null.  The Strapi forwarding inside the promise is
best-effort and does not change the outcome, so it is not modelled. -/
def processGroup (env : AutoEnv) (allGroups : List Chat) (groupName : String) :
    Option GroupInfo × List ClientCall :=
  match findGroup allGroups groupName with
  | none => (none, [])
  | some g =>
    match env.participants g.name with
    | none => (none, [ClientCall.getParticipants g.name])
    | some ps =>
        (some { name := g.name, members := ps.map (mkMember env.now g.name) },
         [ClientCall.getParticipants g.name])

/-- The scan loop (SimpleWhatsAppService.ts lines 419-518): per target,
await the per-group promise; on success count successful, on a null
resolution or an error record the name in failedGroups, count failed,
and store an empty member list under the requested name; either way
completed is incremented once.  Returns the results, the final progress,
the progress snapshot after each item, and the client calls made. -/
def scanLoop (env : AutoEnv) (allGroups : List Chat) :
    List String → ScanProgress →
      List (String × GroupInfo) × ScanProgress × List ScanProgress × List ClientCall
  | [], prog => ([], prog, [], [])
  | groupName :: rest, prog =>
    let pr := processGroup env allGroups groupName
    let step :=
      match pr.1 with
      | some info =>
          ((groupName, info),
           { prog with successful := prog.successful + 1,
                       completed := prog.completed + 1 })
      | none =>
          ((groupName, { name := groupName, members := [] }),
           { prog with failedGroups := prog.failedGroups ++ [groupName],
                       failed := prog.failed + 1,
                       completed := prog.completed + 1 })
    let tail := scanLoop env allGroups rest step.2
    (step.1 :: tail.1, tail.2.1, step.2 :: tail.2.2.1, pr.2 ++ tail.2.2.2)

/-- Outcome of one scanGroups call: the promise result, the state at
resolution, the automation-client calls made, and the states observable
while the batch was in flight. -/
structure ScanOutcome where
  result : Except String (List (String × GroupInfo))
  finalState : ServiceState
  calls : List ClientCall
  duringStates : List ServiceState

/-- scanGroups (SimpleWhatsAppService.ts lines 357-540).  When no client
handle exists the method first awaits initialize(), modelled by its
observable effect: the client comes up and ends authenticated or not
according to initAuth.  An unauthenticated state then rejects before any
chat fetch; otherwise the auto close timer is cancelled, scanning is set,
progress is reset, the chat list is fetched once, the loop runs, and
scanning is cleared before the promise resolves with the auto close
timer rearmed. -/
def scanGroupsRun (st : ServiceState) (env : AutoEnv) (initAuth : Bool)
    (names : List String) : ScanOutcome :=
  let st1 := if st.clientPresent then st
    else { st with clientPresent := true, pupPage := true,
                   isAuthenticated := initAuth }
  let calls0 : List ClientCall := if st.clientPresent then [] else [ClientCall.clientInit]
  if !st1.isAuthenticated then
    { result := Except.error "Cliente no autenticado. Por favor escanee el codigo QR primero."
      finalState := st1
      calls := calls0
      duringStates := [] }
  else if !(st1.clientPresent && st1.pupPage) then
    { result := Except.error "El cliente de WhatsApp no esta correctamente inicializado. Intente reiniciar la aplicacion."
      finalState := st1
      calls := calls0
      duringStates := [] }
  else
    let prog0 : ScanProgress :=
      { total := names.length, completed := 0, successful := 0, failed := 0,
        failedGroups := [] }
    let st2 := { st1 with autoCloseArmed := false, scanning := true,
                          progress := prog0 }
    let allGroups := env.chats.filter (fun c => c.isGroup)
    let res := scanLoop env allGroups names prog0
    let st3 := { st2 with progress := res.2.1, scanning := false,
                          autoCloseArmed := true }
    { result := Except.ok res.1
      finalState := st3
      calls := calls0 ++ ClientCall.getChats :: res.2.2.2
      duringStates := st2 :: (res.2.2.1).map (fun p => { st2 with progress := p }) }

end SimpleWhatsAppService

/-! ## GroupScanner (src/unnamed/part_005 and src/unnamed/part_006)

The rewrite of the scan orchestrator whose per-target record carries an
explicit success flag and error message. -/

/-- The ScanResult record of GroupScanner. -/
structure ScanResult where
  name : String
  members : List GroupMember
  error : Option String
  success : Bool
deriving DecidableEq

namespace GroupScanner

/-- scanSingleGroup: resolve against the already fetched group list (the
same single find as the scan loop), fetch participants with retries, and
convert; each failure shape returns an unsuccessful ScanResult instead
of throwing.  env.participants returns none when every retry attempt
fails. -/
def scanSingleGroup (env : AutoEnv) (allGroups : List Chat)
    (groupName : String) : ScanResult :=
  match findGroup allGroups groupName with
  | none =>
      { name := groupName
        members := []
        error := some ("Grupo \"" ++ groupName ++
          "\" no encontrado en la lista de grupos disponibles.")
        success := false }
  | some g =>
    match env.participants g.name with
    | none =>
        { name := g.name
          members := []
          error := some "No se pudieron obtener los participantes despues de varios intentos"
          success := false }
    | some ps =>
        { name := g.name
          members := ps.map (mkMember env.now g.name)
          error := none
          success := true }

/-- scanGroups of GroupScanner: fetch the chat list once, then process
each name through scanSingleGroup guarded by the per-item timeout; a
timeout rejection is caught by the loop and recorded as an unsuccessful
result under the requested name.  itemTimedOut tells which items hit the
per-item timeout. -/
def scanGroups (env : AutoEnv) (itemTimedOut : String → Bool)
    (names : List String) : List (String × ScanResult) :=
  let allGroups := env.chats.filter (fun c => c.isGroup)
  names.map (fun groupName =>
    if itemTimedOut groupName then
      (groupName,
       { name := groupName
         members := []
         error := some "Operation timed out"
         success := false })
    else (groupName, scanSingleGroup env allGroups groupName))

end GroupScanner

/-! ## Per-item timing (SimpleWhatsAppService.ts lines 396-428 and 486-506)

The per-group promise races the membership fetch against a timer of
groupTimeout milliseconds on the single-threaded event loop.  fetchTime
is the delay after the item starts at which the fetch would resolve,
none for a fetch that never resolves. -/

/-- Outcome of one raced item: whether it succeeded and how long the
loop waited on it before moving to the next target. -/
def processItemTimed (fetchTime : Option Nat) (timeoutMs : Nat) : Bool × Nat :=
  match fetchTime with
  | none => (false, timeoutMs)
  | some t => if t < timeoutMs then (true, t) else (false, timeoutMs)

/-- Start times of each batch item (and, as the final entry, of the
batch end), when the batch starts at t0 and each item waits as long as
its race allows. -/
def itemStartTimes : List (Option Nat) → Nat → Nat → List Nat
  | [], _, t0 => [t0]
  | d :: rest, timeoutMs, t0 =>
      t0 :: itemStartTimes rest timeoutMs (t0 + (processItemTimed d timeoutMs).2)

/-! ## Session lifecycle (SimpleWhatsAppService.ts lines 103-273, 948-1007,
1049-1103 and 1349-1396) -/

/-- Session controller state: the client handle, the authentication
flag, the last recorded authentication error, the pending QR payload,
whether the two supervision timers are armed, and whether the local
session artifact directories exist. -/
structure SessionState where
  clientPresent : Bool
  isAuthenticated : Bool
  authError : Option String
  qrCode : Option String
  authTimerArmed : Bool
  autoCloseArmed : Bool
  sessionFiles : Bool
deriving DecidableEq

namespace SessionMachine

/-- The observable state effects of entering initialize()
(SimpleWhatsAppService.ts lines 103-122): a no-op when a client already
exists and is authenticated; otherwise authError is reset to null, the
auth timer is cleared and re-armed, and a client handle comes up. -/
def startClientInit (s : SessionState) : SessionState :=
  if s.clientPresent && s.isAuthenticated then s
  else { s with authError := none, authTimerArmed := true, clientPresent := true }

/-- The authenticated event handler (SimpleWhatsAppService.ts lines
1062-1069): set the flag, clear QR and error, clear the auth timer. -/
def onAuthenticated (s : SessionState) : SessionState :=
  { s with isAuthenticated := true, qrCode := none, authError := none,
           authTimerArmed := false }

/-- The auth_failure event handler (SimpleWhatsAppService.ts lines
1071-1076): record the reason, drop the flag. -/
def onAuthFailure (s : SessionState) (reason : String) : SessionState :=
  { s with authError := some reason, isAuthenticated := false }

/-- softClose (SimpleWhatsAppService.ts lines 976-1007): destroy the
client, drop the flag and the QR; authError and the local session
artifact are untouched. -/
def softClose (s : SessionState) : SessionState :=
  { s with clientPresent := false, isAuthenticated := false, qrCode := none }

/-- logout (SimpleWhatsAppService.ts lines 1203-1249): client logout and
destroy, state reset, then local session files cleaned. -/
def logout (s : SessionState) : SessionState :=
  { s with clientPresent := false, isAuthenticated := false, qrCode := none,
           sessionFiles := false }

/-- close (SimpleWhatsAppService.ts lines 948-971): cancel the auto
close timer, then soft close when preserveSession is true, else
logout. -/
def close (s : SessionState) (preserveSession : Bool) : SessionState :=
  let s1 := { s with autoCloseArmed := false }
  if preserveSession then softClose s1 else logout s1

/-- The auth timer firing (SimpleWhatsAppService.ts lines 1361-1370):
one-shot; if the client is not authenticated it is force-closed with
close(true).  No authentication error is recorded by this path. -/
def authTimerFire (s : SessionState) : SessionState :=
  if s.authTimerArmed then
    let s1 := { s with authTimerArmed := false }
    if !s1.isAuthenticated then close s1 true else s1
  else s

/-- getAuthError (SimpleWhatsAppService.ts lines 1342-1344). -/
def getAuthError (s : SessionState) : Option String := s.authError

/-- isClientAuthenticated (SimpleWhatsAppService.ts lines 940-942). -/
def isClientAuthenticated (s : SessionState) : Bool := s.isAuthenticated

/-- The constructor-time session state. -/
def initialState : SessionState :=
  { clientPresent := false, isAuthenticated := false, authError := none,
    qrCode := none, authTimerArmed := false, autoCloseArmed := false,
    sessionFiles := false }

end SessionMachine

/-- A ready authenticated service state (client up, page live,
authenticated, idle). -/
def authedServiceState : ServiceState :=
  { clientPresent := true
    pupPage := true
    isAuthenticated := true
    scanning := false
    progress := { total := 0, completed := 0, successful := 0, failed := 0,
                  failedGroups := [] }
    autoCloseArmed := false }

/-- A trivial automation environment with no chats. -/
def emptyAutoEnv : AutoEnv :=
  { chats := [], participants := fun _ => none, now := 0 }

theorem b64Val_byteToB64 : ∀ n, n < 64 → b64Val (byteToB64 n) = n := by decide

theorem byteToB64_ne_pad : ∀ n, n < 64 → byteToB64 n ≠ 61 := by decide

theorem b64_roundtrip : ∀ bs : List Nat, (∀ x ∈ bs, x < 256) →
    b64decode (b64encode bs) = bs
  | [], _ => rfl
  | [a], h => by
      have ha : a < 256 := h a (by simp)
      have h1 : a / 4 < 64 := by omega
      have h2 : a % 4 * 16 < 64 := by omega
      simp [b64encode, b64decode, b64Val_byteToB64 _ h1, b64Val_byteToB64 _ h2]
      omega
  | [a, b], h => by
      have ha : a < 256 := h a (by simp)
      have hb : b < 256 := h b (by simp)
      have h1 : a / 4 < 64 := by omega
      have h2 : a % 4 * 16 + b / 16 < 64 := by omega
      have h3 : b % 16 * 4 < 64 := by omega
      simp [b64encode, b64decode, b64Val_byteToB64 _ h1, b64Val_byteToB64 _ h2,
        b64Val_byteToB64 _ h3, if_neg (byteToB64_ne_pad _ h3)]
      omega
  | a :: b :: c :: rest, h => by
      have ha : a < 256 := h a (by simp)
      have hb : b < 256 := h b (by simp)
      have hc : c < 256 := h c (by simp)
      have ih := b64_roundtrip rest (fun x hx => h x (by simp [hx]))
      have h1 : a / 4 < 64 := by omega
      have h2 : a % 4 * 16 + b / 16 < 64 := by omega
      have h3 : b % 16 * 4 + c / 64 < 64 := by omega
      have h4 : c % 64 < 64 := by omega
      simp [b64encode, b64decode, b64Val_byteToB64 _ h1, b64Val_byteToB64 _ h2,
        b64Val_byteToB64 _ h3, b64Val_byteToB64 _ h4,
        if_neg (byteToB64_ne_pad _ h3), if_neg (byteToB64_ne_pad _ h4), ih]
      omega

theorem b64encode_ne_nil : ∀ bs : List Nat, bs ≠ [] → b64encode bs ≠ []
  | [], h => absurd rfl h
  | [_], _ => by simp [b64encode]
  | [_, _], _ => by simp [b64encode]
  | _ :: _ :: _ :: _, _ => by simp [b64encode]

theorem foldl_append_eq (L : List (List α)) :
    ∀ acc : List α, L.foldl (fun a x => a ++ x) acc = acc ++ L.flatten := by
  induction L with
  | nil => intro acc; simp
  | cons x xs ih => intro acc; simp [List.foldl_cons, ih]

theorem range_chunks_flatten (M : Nat) :
    ∀ (n : Nat) (d : List α), d.length ≤ n * M →
      ((List.range n).map (fun i => ((d.drop (i * M)).take M))).flatten = d := by
  intro n
  induction n with
  | zero =>
      intro d hd
      simp at hd
      simp [hd]
  | succ n ih =>
      intro d hd
      rw [Nat.succ_mul] at hd
      rw [List.range_succ_eq_map]
      simp only [List.map_cons, List.map_map, List.flatten_cons]
      have h0 : (d.drop (0 * M)).take M = d.take M := by simp
      have hrest : ∀ i : Nat, (d.drop ((Nat.succ i) * M)).take M
          = (((d.drop M).drop (i * M)).take M) := by
        intro i
        rw [List.drop_drop]
        have harith : Nat.succ i * M = M + i * M := by
          rw [Nat.succ_mul]; omega
        rw [harith]
      rw [h0]
      have hmap : (List.range n).map ((fun i => (d.drop (i * M)).take M) ∘ Nat.succ)
          = (List.range n).map (fun i => (((d.drop M).drop (i * M)).take M)) := by
        apply List.map_congr_left
        intro i _
        exact hrest i
      rw [hmap, ih (d.drop M) (by rw [List.length_drop]; omega)]
      exact List.take_append_drop M d

theorem saveFragments_filter_self (s : String) (d : List Nat) :
    (StrapiStore.saveFragments s d).filter
      (fun f => f.active && f.session_id == s) = StrapiStore.saveFragments s d := by
  apply List.filter_eq_self.mpr
  intro f hf
  simp only [StrapiStore.saveFragments, List.mem_map, List.mem_range] at hf
  obtain ⟨i, _, rfl⟩ := hf
  simp

theorem deleteAll_filter_nil (store : List Fragment) (s : String) :
    (StrapiStore.deleteAllSessionFragments store s).filter
      (fun f => f.active && f.session_id == s) = [] := by
  apply List.filter_eq_nil_iff.mpr
  intro f hf
  simp only [StrapiStore.deleteAllSessionFragments, List.mem_filter,
    decide_eq_true_eq] at hf
  simp [hf.2]

theorem saveFragments_sorted (s : String) (d : List Nat) :
    (StrapiStore.saveFragments s d).Pairwise
      (fun a b => decide (a.chunk_index ≤ b.chunk_index) = true) := by
  unfold StrapiStore.saveFragments
  refine List.Pairwise.map _ ?_ (List.pairwise_lt_range _)
  intro a b hab
  simp
  omega

theorem saveFragments_foldl_data (s : String) (d : List Nat)
    (hlen : d.length ≤ ((d.length + (MAX_CHUNK_SIZE - 1)) / MAX_CHUNK_SIZE) * MAX_CHUNK_SIZE) :
    (StrapiStore.saveFragments s d).foldl
      (fun acc f => acc ++ f.session_data) [] = d := by
  unfold StrapiStore.saveFragments
  rw [List.foldl_map]
  have h1 : ((List.range ((d.length + (MAX_CHUNK_SIZE - 1)) / MAX_CHUNK_SIZE)).map
      (fun i => ((d.drop (i * MAX_CHUNK_SIZE)).take MAX_CHUNK_SIZE))).foldl
      (fun a x => a ++ x) [] = d := by
    rw [foldl_append_eq, List.nil_append]
    exact range_chunks_flatten MAX_CHUNK_SIZE _ d hlen
  rw [List.foldl_map] at h1
  exact h1

theorem ceil_chunks_len (L : Nat) :
    L ≤ ((L + (MAX_CHUNK_SIZE - 1)) / MAX_CHUNK_SIZE) * MAX_CHUNK_SIZE := by
  unfold MAX_CHUNK_SIZE
  omega

/-- Central helper for the round-trip claims: extract after save returns
the original blob, for any store contents, provided the opaque zlib pair
is lossless, emits bytes, and never emits an empty compressed stream
(zlib.gzipSync always emits a nonempty header). -/
theorem extract_after_save
    (gzip : List Nat → List Nat) (gunzip : List Nat → Option (List Nat))
    (store : List Fragment) (sessionName : String) (b : List Nat)
    (hinv : gunzip (gzip b) = some b)
    (hbytes : ∀ x ∈ gzip b, x < 256)
    (hne : gzip b ≠ []) :
    StrapiStore.extract gunzip (StrapiStore.save gzip store sessionName b)
      sessionName = some b := by
  have hd : b64encode (gzip b) ≠ [] := b64encode_ne_nil _ hne
  have hdlen : 1 ≤ (b64encode (gzip b)).length := List.length_pos.mpr hd
  have hn1 : 1 ≤ ((b64encode (gzip b)).length + (MAX_CHUNK_SIZE - 1)) / MAX_CHUNK_SIZE := by
    unfold MAX_CHUNK_SIZE
    omega
  have hfrag_ne : StrapiStore.saveFragments sessionName (b64encode (gzip b)) ≠ [] := by
    intro hcon
    have := congrArg List.length hcon
    simp [StrapiStore.saveFragments] at this
    omega
  unfold StrapiStore.extract StrapiStore.save
  rw [List.filter_append, deleteAll_filter_nil, saveFragments_filter_self,
    List.nil_append]
  rw [List.mergeSort_of_sorted (saveFragments_sorted sessionName _)]
  simp only [List.isEmpty_iff, hfrag_ne, if_false]
  rw [saveFragments_foldl_data _ _ (ceil_chunks_len _)]
  have hany : (StrapiStore.saveFragments sessionName (b64encode (gzip b))).any
      (fun f => f.is_compressed) = true := by
    apply List.any_eq_true.mpr
    refine ⟨_, List.mem_map.mpr ⟨0, List.mem_range.mpr hn1, rfl⟩, ?_⟩
    simp
  rw [hany]
  simp only [if_true]
  rw [b64_roundtrip (gzip b) hbytes, hinv]

theorem save_session_fragments (gzip : List Nat → List Nat)
    (store : List Fragment) (s : String) (b : List Nat) :
    (StrapiStore.save gzip store s b).filter (fun f => f.session_id == s)
      = StrapiStore.saveFragments s (b64encode (gzip b)) := by
  unfold StrapiStore.save
  rw [List.filter_append]
  have h1 : (StrapiStore.deleteAllSessionFragments store s).filter
      (fun f => f.session_id == s) = [] := by
    apply List.filter_eq_nil_iff.mpr
    intro f hf
    simp only [StrapiStore.deleteAllSessionFragments, List.mem_filter,
      decide_eq_true_eq] at hf
    simp [hf.2]
  have h2 : (StrapiStore.saveFragments s (b64encode (gzip b))).filter
      (fun f => f.session_id == s)
      = StrapiStore.saveFragments s (b64encode (gzip b)) := by
    apply List.filter_eq_self.mpr
    intro f hf
    simp only [StrapiStore.saveFragments, List.mem_map, List.mem_range] at hf
    obtain ⟨i, _, rfl⟩ := hf
    simp
  rw [h1, h2, List.nil_append]

/-- C1: for every blob b whose length is one of 0, 1, MAX_CHUNK_SIZE - 1,
MAX_CHUNK_SIZE, MAX_CHUNK_SIZE * 3 + 17, saving and then extracting
against a faithful record store returns exactly the original bytes.  The
proof in fact covers every blob; the zlib collaborator is assumed
lossless, byte valued, and never empty on output, as zlib.gzipSync
guarantees. -/
theorem c1_save_extract_roundtrip
    (gzip : List Nat → List Nat) (gunzip : List Nat → Option (List Nat))
    (store : List Fragment) (sessionId : String) (b : List Nat)
    (_hlen : b.length = 0 ∨ b.length = 1 ∨ b.length = MAX_CHUNK_SIZE - 1 ∨
             b.length = MAX_CHUNK_SIZE ∨ b.length = MAX_CHUNK_SIZE * 3 + 17)
    (hinv : gunzip (gzip b) = some b)
    (hbytes : ∀ x ∈ gzip b, x < 256)
    (hne : gzip b ≠ []) :
    StrapiStore.extract gunzip (StrapiStore.save gzip store sessionId b)
      sessionId = some b :=
  extract_after_save gzip gunzip store sessionId b hinv hbytes hne

/-- Witness for C1 at a concrete store, session and blob. -/
theorem c1_save_extract_roundtrip_witness :
    StrapiStore.extract (fun y => some y.tail)
      (StrapiStore.save (fun x => 0 :: x) [] "RemoteAuth-whatsapp-api" [200])
      "RemoteAuth-whatsapp-api" = some [200] :=
  c1_save_extract_roundtrip (fun x => 0 :: x) (fun y => some y.tail) []
    "RemoteAuth-whatsapp-api" [200] (by decide) rfl (by decide) (by decide)

/-- C2: saving b1 then b2 under the same session id leaves exactly the
fragments produced from b2 in the store for that id (save deletes every
existing fragment for the id before writing), and a subsequent extract
returns b2. -/
theorem c2_save_replace
    (gzip : List Nat → List Nat) (gunzip : List Nat → Option (List Nat))
    (store : List Fragment) (sessionId : String) (b1 b2 : List Nat)
    (hinv : gunzip (gzip b2) = some b2)
    (hbytes : ∀ x ∈ gzip b2, x < 256)
    (hne : gzip b2 ≠ []) :
    ((StrapiStore.save gzip (StrapiStore.save gzip store sessionId b1)
        sessionId b2).filter (fun f => f.session_id == sessionId)
      = StrapiStore.saveFragments sessionId (b64encode (gzip b2)))
    ∧ StrapiStore.extract gunzip
        (StrapiStore.save gzip (StrapiStore.save gzip store sessionId b1)
          sessionId b2) sessionId = some b2 :=
  ⟨save_session_fragments gzip _ sessionId b2,
   extract_after_save gzip gunzip _ sessionId b2 hinv hbytes hne⟩

/-- Witness for C2 at a concrete store, session and pair of blobs. -/
theorem c2_save_replace_witness :
    ((StrapiStore.save (fun x => 0 :: x)
        (StrapiStore.save (fun x => 0 :: x) [] "RemoteAuth-whatsapp-api" [1])
        "RemoteAuth-whatsapp-api" [2]).filter
        (fun f => f.session_id == "RemoteAuth-whatsapp-api")
      = StrapiStore.saveFragments "RemoteAuth-whatsapp-api" (b64encode [0, 2]))
    ∧ StrapiStore.extract (fun y => some y.tail)
        (StrapiStore.save (fun x => 0 :: x)
          (StrapiStore.save (fun x => 0 :: x) [] "RemoteAuth-whatsapp-api" [1])
          "RemoteAuth-whatsapp-api" [2]) "RemoteAuth-whatsapp-api" = some [2] :=
  c2_save_replace (fun x => 0 :: x) (fun y => some y.tail) []
    "RemoteAuth-whatsapp-api" [1] [2] rfl (by decide) (by decide)

theorem leadsWith_refl : ∀ l : List Char, leadsWith l l = true
  | [] => rfl
  | a :: as => by simp [leadsWith, leadsWith_refl as]

theorem containsSeg_refl (l : List Char) : containsSeg l l = true := by
  unfold containsSeg
  rw [leadsWith_refl]
  cases l <;> rfl

theorem or_contains_eq (x y : List Char) :
    (decide (x = y) || containsSeg x y) = containsSeg x y := by
  by_cases h : x = y
  · subst h
    simp [containsSeg_refl]
  · simp [h]

/-- C3 counterexample: with the chat list afoo, foo and target foo, the
code resolves to afoo (the first substring match) while exact-first
resolution picks the exact match foo, so the claimed priority of exact
matches is false. -/
theorem c3_counterexample :
    findGroup [{ name := "afoo", isGroup := true },
               { name := "foo", isGroup := true }] "foo"
      = some { name := "afoo", isGroup := true }
    ∧ specResolveGroup [{ name := "afoo", isGroup := true },
                        { name := "foo", isGroup := true }] "foo"
      = some { name := "foo", isGroup := true }
    ∧ findGroup [{ name := "afoo", isGroup := true },
                 { name := "foo", isGroup := true }] "foo"
      ≠ specResolveGroup [{ name := "afoo", isGroup := true },
                          { name := "foo", isGroup := true }] "foo" := by
  refine ⟨?_, ?_, ?_⟩ <;> decide

/-- C3 amended: the scan resolves a target to the FIRST chat in list
order whose lowercased name contains the lowercased target (a single
find over the disjunction of exact equality and containment, in which
the equality disjunct is subsumed by containment, so exact matches are
not preferred over earlier substring matches); a name with no match of
either kind yields an immediate failed result with no automation-client
call and no retry. -/
theorem c3_resolution_amended (allGroups : List Chat) (groupName : String)
    (env : AutoEnv) :
    (findGroup allGroups groupName
      = allGroups.find? (fun g =>
          containsSeg (lowerChars g.name.toList) (lowerChars groupName.toList)))
    ∧ (findGroup allGroups groupName = none →
        SimpleWhatsAppService.processGroup env allGroups groupName = (none, [])) := by
  constructor
  · unfold findGroup
    congr 1
    funext g
    exact or_contains_eq _ _
  · intro h
    unfold SimpleWhatsAppService.processGroup
    rw [h]

/-- Witness for C3 amended at an empty chat list. -/
theorem c3_resolution_amended_witness :
    SimpleWhatsAppService.processGroup
      { chats := [], participants := fun _ => none, now := 0 } [] "Grupo X"
      = (none, []) :=
  (c3_resolution_amended [] "Grupo X"
    { chats := [], participants := fun _ => none, now := 0 }).2 (by decide)

/-- C4 counterexample: from the fresh service state, entering
initialize() and letting the auth timer fire leaves getAuthError() null,
refuting the claim that it is non-null after the timeout. -/
theorem c4_counterexample :
    SessionMachine.getAuthError
      (SessionMachine.authTimerFire
        (SessionMachine.startClientInit SessionMachine.initialState)) = none
    ∧ SessionMachine.isClientAuthenticated
        (SessionMachine.authTimerFire
          (SessionMachine.startClientInit SessionMachine.initialState)) = false := by
  refine ⟨?_, ?_⟩ <;> decide

/-- C4 amended: if no authenticated event fires within the auth-timeout
window after initialize(), the timer fires and force-closes the session
through close(true): the client handle is released, the session artifact
is preserved, isClientAuthenticated() is false, and getAuthError()
remains null (no AuthTimeoutError is surfaced through state; the code
only logs and emits). -/
theorem c4_auth_timeout_amended (s : SessionState)
    (hauth : s.isAuthenticated = false) :
    SessionMachine.isClientAuthenticated
        (SessionMachine.authTimerFire (SessionMachine.startClientInit s)) = false
    ∧ (SessionMachine.authTimerFire
        (SessionMachine.startClientInit s)).clientPresent = false
    ∧ (SessionMachine.authTimerFire
        (SessionMachine.startClientInit s)).sessionFiles = s.sessionFiles
    ∧ SessionMachine.getAuthError
        (SessionMachine.authTimerFire (SessionMachine.startClientInit s)) = none := by
  unfold SessionMachine.startClientInit SessionMachine.authTimerFire
    SessionMachine.close SessionMachine.softClose SessionMachine.logout
    SessionMachine.isClientAuthenticated SessionMachine.getAuthError
  simp [hauth]

/-- Witness for C4 amended at the fresh service state. -/
theorem c4_auth_timeout_amended_witness :
    SessionMachine.isClientAuthenticated
        (SessionMachine.authTimerFire
          (SessionMachine.startClientInit SessionMachine.initialState)) = false
    ∧ (SessionMachine.authTimerFire
        (SessionMachine.startClientInit SessionMachine.initialState)).clientPresent = false
    ∧ (SessionMachine.authTimerFire
        (SessionMachine.startClientInit SessionMachine.initialState)).sessionFiles
        = SessionMachine.initialState.sessionFiles
    ∧ SessionMachine.getAuthError
        (SessionMachine.authTimerFire
          (SessionMachine.startClientInit SessionMachine.initialState)) = none :=
  c4_auth_timeout_amended SessionMachine.initialState rfl

/-- C5 counterexample: scanGroups on the empty name list, from an
authenticated state, resolves to the empty result map but still performs
one getChats automation-client call, refuting the claim that no
automation-client call is made. -/
theorem c5_counterexample :
    (SimpleWhatsAppService.scanGroupsRun authedServiceState emptyAutoEnv true []).result
      = Except.ok []
    ∧ (SimpleWhatsAppService.scanGroupsRun authedServiceState emptyAutoEnv true []).calls
      = [ClientCall.getChats]
    ∧ [ClientCall.getChats] ≠ ([] : List ClientCall) :=
  ⟨rfl, rfl, by decide⟩

/-- C5 amended: scanGroups on the empty name list, while authenticated,
resolves to an empty result map, but it performs exactly one
automation-client call, the single getChats chat fetch; no per-group
call is made. -/
theorem c5_empty_scan (st : ServiceState) (env : AutoEnv) (b : Bool)
    (hc : st.clientPresent = true) (ha : st.isAuthenticated = true)
    (hp : st.pupPage = true) :
    (SimpleWhatsAppService.scanGroupsRun st env b []).result = Except.ok []
    ∧ (SimpleWhatsAppService.scanGroupsRun st env b []).calls
      = [ClientCall.getChats] := by
  unfold SimpleWhatsAppService.scanGroupsRun
  simp [hc, ha, hp, SimpleWhatsAppService.scanLoop]

/-- Witness for C5 amended at the ready authenticated state. -/
theorem c5_empty_scan_witness :
    (SimpleWhatsAppService.scanGroupsRun authedServiceState emptyAutoEnv true []).result
      = Except.ok []
    ∧ (SimpleWhatsAppService.scanGroupsRun authedServiceState emptyAutoEnv true []).calls
      = [ClientCall.getChats] :=
  c5_empty_scan authedServiceState emptyAutoEnv true rfl rfl rfl

/-- C6 counterexample: calling scanGroups from the fresh state (no
client handle, not authenticated) rejects with the authentication
error, but only after invoking initialize(), an automation-client call,
refuting the claim that no automation-client call is made. -/
theorem c6_counterexample :
    (SimpleWhatsAppService.scanGroupsRun initialServiceState emptyAutoEnv false
        ["Grupo A"]).result
      = Except.error "Cliente no autenticado. Por favor escanee el codigo QR primero."
    ∧ (SimpleWhatsAppService.scanGroupsRun initialServiceState emptyAutoEnv false
        ["Grupo A"]).calls = [ClientCall.clientInit]
    ∧ [ClientCall.clientInit] ≠ ([] : List ClientCall) :=
  ⟨rfl, rfl, by decide⟩

/-- C6 amended: when a client handle exists and the session is not
authenticated, scanGroups rejects immediately with the authentication
error, before any chat fetch, with no automation-client call and no
state change.  When no client handle exists, scanGroups first awaits
initialize(), an automation-client call, and then rejects with the same
error only if the session is still unauthenticated afterwards. -/
theorem c6_reject_unauthenticated (st : ServiceState) (env : AutoEnv)
    (b : Bool) (names : List String) :
    (st.clientPresent = true → st.isAuthenticated = false →
      (SimpleWhatsAppService.scanGroupsRun st env b names).result
        = Except.error "Cliente no autenticado. Por favor escanee el codigo QR primero."
      ∧ (SimpleWhatsAppService.scanGroupsRun st env b names).calls = []
      ∧ (SimpleWhatsAppService.scanGroupsRun st env b names).finalState = st)
    ∧ (st.clientPresent = false →
      (SimpleWhatsAppService.scanGroupsRun st env false names).result
        = Except.error "Cliente no autenticado. Por favor escanee el codigo QR primero."
      ∧ (SimpleWhatsAppService.scanGroupsRun st env false names).calls
        = [ClientCall.clientInit]) := by
  constructor
  · intro hc ha
    unfold SimpleWhatsAppService.scanGroupsRun
    simp [hc, ha]
  · intro hc
    unfold SimpleWhatsAppService.scanGroupsRun
    simp [hc]

/-- Witness for C6 amended, covering both branches. -/
theorem c6_reject_unauthenticated_witness :
    ((SimpleWhatsAppService.scanGroupsRun
        { authedServiceState with isAuthenticated := false } emptyAutoEnv true
        ["Grupo A"]).result
      = Except.error "Cliente no autenticado. Por favor escanee el codigo QR primero."
    ∧ (SimpleWhatsAppService.scanGroupsRun
        { authedServiceState with isAuthenticated := false } emptyAutoEnv true
        ["Grupo A"]).calls = []
    ∧ (SimpleWhatsAppService.scanGroupsRun
        { authedServiceState with isAuthenticated := false } emptyAutoEnv true
        ["Grupo A"]).finalState
      = { authedServiceState with isAuthenticated := false })
    ∧ ((SimpleWhatsAppService.scanGroupsRun initialServiceState emptyAutoEnv false
        ["Grupo B"]).result
      = Except.error "Cliente no autenticado. Por favor escanee el codigo QR primero."
    ∧ (SimpleWhatsAppService.scanGroupsRun initialServiceState emptyAutoEnv false
        ["Grupo B"]).calls = [ClientCall.clientInit]) :=
  ⟨(c6_reject_unauthenticated { authedServiceState with isAuthenticated := false }
      emptyAutoEnv true ["Grupo A"]).1 rfl rfl,
   (c6_reject_unauthenticated initialServiceState emptyAutoEnv false ["Grupo B"]).2 rfl⟩

theorem scan_during_scanning (st : ServiceState) (env : AutoEnv) (b : Bool)
    (names : List String) :
    ∀ s ∈ (SimpleWhatsAppService.scanGroupsRun st env b names).duringStates,
      s.scanning = true := by
  intro s hs
  unfold SimpleWhatsAppService.scanGroupsRun at hs
  by_cases hcp : st.clientPresent
  · by_cases hia : st.isAuthenticated
    · by_cases hpp : st.pupPage
      · simp [hcp, hia, hpp] at hs
        rcases hs with h | ⟨p, _, h⟩
        · rw [h]
        · rw [← h]
      · simp [hcp, hia, hpp] at hs
    · simp [hcp, hia] at hs
  · by_cases hb : b
    · simp [hcp, hb] at hs
      rcases hs with h | ⟨p, _, h⟩
      · rw [h]
      · rw [← h]
    · simp [hcp, hb] at hs

theorem scan_final_not_scanning (st : ServiceState) (env : AutoEnv) (b : Bool)
    (names : List String) (hsc : st.scanning = false) :
    (SimpleWhatsAppService.scanGroupsRun st env b names).finalState.scanning
      = false := by
  unfold SimpleWhatsAppService.scanGroupsRun
  by_cases hcp : st.clientPresent
  · by_cases hia : st.isAuthenticated
    · by_cases hpp : st.pupPage
      · simp [hcp, hia, hpp]
      · simp [hcp, hia, hpp, hsc]
    · simp [hcp, hia, hsc]
  · by_cases hb : b
    · simp [hcp, hb]
    · simp [hcp, hb, hsc]

/-- C7 counterexample: in the constructor-time state both completed and
total are 0, so completed equals total, yet percent is 0 and not 100:
the claimed equivalence fails in a reachable state. -/
theorem c7_counterexample :
    (getScanProgress initialServiceState.progress).percent = 0
    ∧ initialServiceState.progress.completed = initialServiceState.progress.total
    ∧ (getScanProgress initialServiceState.progress).percent ≠ 100 := by
  refine ⟨?_, ?_, ?_⟩ <;> decide

/-- C7 amended: percent equals 100 exactly when total is positive and
the half-up rounded ratio reaches 100, that is 199 * total ≤ 200 *
completed given completed ≤ total (so percent is 0, not 100, when total
is 0 even though completed equals total, and percent already reads 100
at 199 completed of 200); and isScanning() is true only strictly during
a scanGroups call: every state observable while the batch is in flight
has scanning true, and the state at resolution, like any state outside a
call that started unscanning, has scanning false. -/
theorem c7_percent_and_scanning :
    (∀ p : ScanProgress, p.completed ≤ p.total →
      ((getScanProgress p).percent = 100 ↔
        0 < p.total ∧ 199 * p.total ≤ 200 * p.completed))
    ∧ (∀ (st : ServiceState) (env : AutoEnv) (b : Bool) (names : List String),
        st.scanning = false →
        ((∀ s ∈ (SimpleWhatsAppService.scanGroupsRun st env b names).duringStates,
            s.scanning = true)
         ∧ (SimpleWhatsAppService.scanGroupsRun st env b names).finalState.scanning
            = false)) := by
  constructor
  · intro p hcle
    unfold getScanProgress
    by_cases ht : 0 < p.total
    · simp only [if_pos ht]
      constructor
      · intro heq
        have h1 : 100 * (2 * p.total) ≤ 200 * p.completed + p.total :=
          (Nat.le_div_iff_mul_le (by omega)).mp (le_of_eq heq.symm)
        exact ⟨ht, by omega⟩
      · rintro ⟨-, hge⟩
        have h1 : 100 ≤ (200 * p.completed + p.total) / (2 * p.total) :=
          (Nat.le_div_iff_mul_le (by omega)).mpr (by omega)
        have h2 : (200 * p.completed + p.total) / (2 * p.total) < 101 :=
          (Nat.div_lt_iff_lt_mul (by omega)).mpr (by omega)
        omega
    · simp [ht]
  · intro st env b names hsc
    exact ⟨scan_during_scanning st env b names,
           scan_final_not_scanning st env b names hsc⟩

/-- Witness for C7 amended: percent at completed 199 of total 200 is
100, percent at 2 of 2 is 100, and a concrete run resolves with
scanning false. -/
theorem c7_percent_and_scanning_witness :
    ((getScanProgress { total := 200, completed := 199, successful := 199,
                        failed := 0, failedGroups := [] }).percent = 100 ↔
      0 < 200 ∧ 199 * 200 ≤ 200 * 199)
    ∧ ((∀ s ∈ (SimpleWhatsAppService.scanGroupsRun authedServiceState emptyAutoEnv
          true ["Grupo A"]).duringStates, s.scanning = true)
       ∧ (SimpleWhatsAppService.scanGroupsRun authedServiceState emptyAutoEnv
          true ["Grupo A"]).finalState.scanning = false) :=
  ⟨c7_percent_and_scanning.1
      { total := 200, completed := 199, successful := 199, failed := 0,
        failedGroups := [] }
      (by decide),
   c7_percent_and_scanning.2 authedServiceState emptyAutoEnv true ["Grupo A"] rfl⟩

theorem itemStartTimes_head (ds : List (Option Nat)) (timeoutMs t0 : Nat) :
    (itemStartTimes ds timeoutMs t0)[0]? = some t0 := by
  cases ds <;> simp [itemStartTimes]

/-- C8: a target whose membership fetch never resolves is recorded as
failed once the per-item timeout elapses; no item ever occupies the loop
longer than the timeout budget; and the next target starts exactly one
timeout after a hanging target started. -/
theorem c8_hanging_item_bounded (ds : List (Option Nat))
    (timeoutMs t0 i : Nat) (hi : ds[i]? = some none) :
    processItemTimed none timeoutMs = (false, timeoutMs)
    ∧ (∀ d, (processItemTimed d timeoutMs).2 ≤ timeoutMs)
    ∧ ∃ s, (itemStartTimes ds timeoutMs t0)[i]? = some s
         ∧ (itemStartTimes ds timeoutMs t0)[i + 1]? = some (s + timeoutMs) := by
  refine ⟨rfl, ?_, ?_⟩
  · intro d
    cases d with
    | none => exact Nat.le_refl _
    | some t =>
        by_cases h : t < timeoutMs
        · simp [processItemTimed, h]
          omega
        · simp [processItemTimed, h]
  · induction ds generalizing i t0 with
    | nil => simp at hi
    | cons d rest ih =>
        cases i with
        | zero =>
            simp at hi
            subst hi
            refine ⟨t0, by simp [itemStartTimes], ?_⟩
            simp [itemStartTimes, itemStartTimes_head, processItemTimed]
        | succ n =>
            simp at hi
            obtain ⟨s, h1, h2⟩ :=
              ih (t0 + (processItemTimed d timeoutMs).2) n hi
            refine ⟨s, ?_, ?_⟩
            · simp [itemStartTimes, h1]
            · simp [itemStartTimes, h2]

/-- Witness for C8 at a single hanging item and the 300000 ms group
timeout of the scan loop. -/
theorem c8_hanging_item_bounded_witness :
    processItemTimed none 300000 = (false, 300000)
    ∧ (∀ d, (processItemTimed d 300000).2 ≤ 300000)
    ∧ ∃ s, (itemStartTimes [none] 300000 0)[0]? = some s
         ∧ (itemStartTimes [none] 300000 0)[0 + 1]? = some (s + 300000) :=
  c8_hanging_item_bounded [none] 300000 0 0 rfl

theorem groupScanner_keys (env : AutoEnv) (timedOut : String → Bool) :
    ∀ names : List String,
      (GroupScanner.scanGroups env timedOut names).map Prod.fst = names := by
  intro names
  simp only [GroupScanner.scanGroups]
  induction names with
  | nil => rfl
  | cons n rest ihm =>
      by_cases h : timedOut n = true
      · simp only [List.map_cons, ihm]
        simp [h]
      · simp only [List.map_cons, ihm]
        simp [h]

/-- C9: GroupScanner.scanGroups resolves with one entry per requested
name (per-target failures are captured inline, never thrown to the batch
caller), and a name matching no chat yields an entry with success false
and an empty members list under that name. -/
theorem c9_unknown_group_inline (env : AutoEnv) (timedOut : String → Bool)
    (names : List String) :
    ((GroupScanner.scanGroups env timedOut names).map Prod.fst = names)
    ∧ (∀ n ∈ names,
        findGroup (env.chats.filter (fun c => c.isGroup)) n = none →
        timedOut n = false →
        (n, { name := n
              members := []
              error := some ("Grupo \"" ++ n ++
                "\" no encontrado en la lista de grupos disponibles.")
              success := false })
          ∈ GroupScanner.scanGroups env timedOut names) := by
  constructor
  · exact groupScanner_keys env timedOut names
  · intro n hn hfind htime
    unfold GroupScanner.scanGroups
    apply List.mem_map.mpr
    refine ⟨n, hn, ?_⟩
    simp [htime, GroupScanner.scanSingleGroup, hfind]

/-- Witness for C9: scanning for Unknown Group against an empty chat
list returns the inline failure entry. -/
theorem c9_unknown_group_inline_witness :
    ("Unknown Group",
      { name := "Unknown Group"
        members := []
        error := some ("Grupo \"" ++ "Unknown Group" ++
          "\" no encontrado en la lista de grupos disponibles.")
        success := false })
      ∈ GroupScanner.scanGroups emptyAutoEnv (fun _ => false) ["Unknown Group"] :=
  (c9_unknown_group_inline emptyAutoEnv (fun _ => false) ["Unknown Group"]).2
    "Unknown Group" (by decide) (by decide) rfl

theorem scanLoop_progress_inv (env : AutoEnv) (allGroups : List Chat) :
    ∀ (names : List String) (prog : ScanProgress),
      prog.successful + prog.failed = prog.completed →
      prog.completed + names.length ≤ prog.total →
      ((∀ p ∈ (SimpleWhatsAppService.scanLoop env allGroups names prog).2.2.1,
          p.successful + p.failed = p.completed ∧ p.completed ≤ p.total)
       ∧ (SimpleWhatsAppService.scanLoop env allGroups names prog).2.1
          ∈ prog :: (SimpleWhatsAppService.scanLoop env allGroups names prog).2.2.1) := by
  intro names
  induction names with
  | nil =>
      intro prog h1 h2
      constructor
      · intro p hp
        simp [SimpleWhatsAppService.scanLoop] at hp
      · simp [SimpleWhatsAppService.scanLoop]
  | cons g rest ih =>
      intro prog h1 h2
      simp only [List.length_cons] at h2
      rcases hpr : (SimpleWhatsAppService.processGroup env allGroups g).1 with _ | info
      · have ih2 := ih { prog with failedGroups := prog.failedGroups ++ [g],
                                   failed := prog.failed + 1,
                                   completed := prog.completed + 1 }
          (by simp; omega) (by simp; omega)
        simp only [SimpleWhatsAppService.scanLoop, hpr]
        constructor
        · intro p hp
          rcases List.mem_cons.mp hp with h | h
          · subst h
            simp
            omega
          · exact ih2.1 p h
        · exact List.mem_cons_of_mem _ ih2.2
      · have ih2 := ih { prog with successful := prog.successful + 1,
                                   completed := prog.completed + 1 }
          (by simp; omega) (by simp; omega)
        simp only [SimpleWhatsAppService.scanLoop, hpr]
        constructor
        · intro p hp
          rcases List.mem_cons.mp hp with h | h
          · subst h
            simp
            omega
          · exact ih2.1 p h
        · exact List.mem_cons_of_mem _ ih2.2

/-- C10: throughout every scanGroups batch, the progress counters
satisfy successful + failed = completed and completed ≤ total, in every
state observable while the batch is in flight and in the state at
resolution. -/
theorem c10_progress_counters (st : ServiceState) (env : AutoEnv) (b : Bool)
    (names : List String) (hc : st.clientPresent = true)
    (ha : st.isAuthenticated = true) (hp : st.pupPage = true) :
    (∀ s ∈ (SimpleWhatsAppService.scanGroupsRun st env b names).duringStates,
        s.progress.successful + s.progress.failed = s.progress.completed
        ∧ s.progress.completed ≤ s.progress.total)
    ∧ ((SimpleWhatsAppService.scanGroupsRun st env b
          names).finalState.progress.successful
        + (SimpleWhatsAppService.scanGroupsRun st env b
          names).finalState.progress.failed
        = (SimpleWhatsAppService.scanGroupsRun st env b
          names).finalState.progress.completed
       ∧ (SimpleWhatsAppService.scanGroupsRun st env b
          names).finalState.progress.completed
        ≤ (SimpleWhatsAppService.scanGroupsRun st env b
          names).finalState.progress.total) := by
  have hinv := scanLoop_progress_inv env (env.chats.filter (fun c => c.isGroup))
    names
    { total := names.length, completed := 0, successful := 0, failed := 0,
      failedGroups := [] }
    (by simp) (by simp)
  constructor
  · intro s hs
    unfold SimpleWhatsAppService.scanGroupsRun at hs
    simp [hc, ha, hp] at hs
    rcases hs with h | ⟨p, hptr, h⟩
    · subst h
      simp
    · rw [← h]
      simp only
      exact hinv.1 p hptr
  · unfold SimpleWhatsAppService.scanGroupsRun
    simp [hc, ha, hp]
    rcases List.mem_cons.mp hinv.2 with h | h
    · rw [h]
      simp
    · exact hinv.1 _ h

/-- Witness for C10 at a concrete authenticated state and batch. -/
theorem c10_progress_counters_witness :
    (∀ s ∈ (SimpleWhatsAppService.scanGroupsRun authedServiceState emptyAutoEnv
        true ["Grupo A", "Grupo B"]).duringStates,
        s.progress.successful + s.progress.failed = s.progress.completed
        ∧ s.progress.completed ≤ s.progress.total)
    ∧ ((SimpleWhatsAppService.scanGroupsRun authedServiceState emptyAutoEnv true
          ["Grupo A", "Grupo B"]).finalState.progress.successful
        + (SimpleWhatsAppService.scanGroupsRun authedServiceState emptyAutoEnv true
          ["Grupo A", "Grupo B"]).finalState.progress.failed
        = (SimpleWhatsAppService.scanGroupsRun authedServiceState emptyAutoEnv true
          ["Grupo A", "Grupo B"]).finalState.progress.completed
       ∧ (SimpleWhatsAppService.scanGroupsRun authedServiceState emptyAutoEnv true
          ["Grupo A", "Grupo B"]).finalState.progress.completed
        ≤ (SimpleWhatsAppService.scanGroupsRun authedServiceState emptyAutoEnv true
          ["Grupo A", "Grupo B"]).finalState.progress.total) :=
  c10_progress_counters authedServiceState emptyAutoEnv true
    ["Grupo A", "Grupo B"] rfl rfl rfl
